import Mathlib

/-!
Verification of the shared packet-routing and network-discovery core of the
dr_ones `common` crate (`src/network_node.rs`, the module exported by
`src/lib.rs`).  Pure data is translated directly; the channel side effects of
a node (sends to neighbours, events to the simulation controller) are made
explicit as output lists, and every operation that can panic in Rust is
translated as an `Option`, with `none` for the panic.
-/

namespace DrOnes

/-- Rust `NodeId` (`u8`): node identifiers are only compared and printed,
never wrapped, so `Nat` is a faithful model. -/
abbrev NodeId := Nat

/-- `wg_2024::packet::NodeType`. -/
inductive NodeType
  | Drone
  | Client
  | Server
deriving DecidableEq

/-- `wg_2024::packet::NackType`: the closed taxonomy of forwarding failures. -/
inductive NackType
  | ErrorInRouting (id : NodeId)
  | DestinationIsDrone
  | Dropped
  | UnexpectedRecipient (id : NodeId)
deriving DecidableEq

/-- `wg_2024::packet::Ack`. -/
structure Ack where
  fragment_index : Nat
deriving DecidableEq

/-- `wg_2024::packet::Nack`. -/
structure Nack where
  fragment_index : Nat
  nack_type : NackType
deriving DecidableEq

/-- `wg_2024::packet::Fragment`; only `fragment_index` is read by this crate,
the data payload is opaque here. -/
structure Fragment where
  fragment_index : Nat
  total_n_fragments : Nat
  length : Nat
  data : List Nat
deriving DecidableEq

/-- `wg_2024::packet::FloodRequest`. -/
structure FloodRequest where
  flood_id : Nat
  initiator_id : NodeId
  path_trace : List (NodeId × NodeType)
deriving DecidableEq

/-- `wg_2024::packet::FloodResponse`. -/
structure FloodResponse where
  flood_id : Nat
  path_trace : List (NodeId × NodeType)
deriving DecidableEq

/-- `wg_2024::packet::PacketType`. -/
inductive PacketType
  | MsgFragment (fragment : Fragment)
  | Ack (ack : Ack)
  | Nack (nack : Nack)
  | FloodRequest (fr : FloodRequest)
  | FloodResponse (fr : FloodResponse)
deriving DecidableEq

/-- `wg_2024::network::SourceRoutingHeader`: hops plus zero-based cursor. -/
structure SourceRoutingHeader where
  hop_index : Nat
  hops : List NodeId
deriving DecidableEq

/-- `wg_2024::packet::Packet`. -/
structure Packet where
  pack_type : PacketType
  routing_header : SourceRoutingHeader
  session_id : Nat
deriving DecidableEq

/-! ## The dedup key string

`handle_flood_request` deduplicates floods with the string key
`initiator_id.to_string() + "_" + flood_id.to_string()` stored in a
`HashSet<String>`.  Strings are modelled as `List Char`, and Rust's decimal
`to_string` as `natRepr` below. -/

/-- Numeric value of a decimal digit character. -/
def charVal (c : Char) : Nat := c.toNat - 48

/-- Fuel-indexed decimal rendering, most significant digit first. -/
def natReprAux : Nat → Nat → List Char
  | 0, _ => []
  | fuel + 1, n =>
    if n < 10 then [Nat.digitChar n]
    else natReprAux fuel (n / 10) ++ [Nat.digitChar (n % 10)]

/-- Decimal rendering of a natural number, most significant digit first:
the model of Rust's `u8::to_string` / `u64::to_string`. -/
def natRepr (n : Nat) : List Char := natReprAux (n + 1) n

/-- Decimal decoding, inverse of `natRepr`. -/
def decodeDigits (l : List Char) : Nat :=
  l.foldl (fun a c => 10 * a + charVal c) 0

theorem charVal_digitChar : ∀ d < 10, charVal (Nat.digitChar d) = d := by decide

theorem digitChar_ne_underscore : ∀ d < 10, Nat.digitChar d ≠ '_' := by decide

theorem decodeDigits_append_singleton (l : List Char) (c : Char) :
    decodeDigits (l ++ [c]) = 10 * decodeDigits l + charVal c := by
  simp [decodeDigits, List.foldl_append]

theorem decode_natReprAux : ∀ fuel n, n < fuel → decodeDigits (natReprAux fuel n) = n := by
  intro fuel
  induction fuel with
  | zero => intro n h; exact absurd h (Nat.not_lt_zero n)
  | succ fuel ih =>
    intro n h
    by_cases h10 : n < 10
    · simp [natReprAux, h10, decodeDigits, charVal_digitChar n h10]
    · have hdiv : n / 10 < fuel := by
        have hlt : n / 10 < n := Nat.div_lt_self (by omega) (by omega)
        omega
      calc decodeDigits (natReprAux (fuel + 1) n)
          = decodeDigits (natReprAux fuel (n / 10) ++ [Nat.digitChar (n % 10)]) := by
            simp [natReprAux, h10]
        _ = 10 * decodeDigits (natReprAux fuel (n / 10)) + charVal (Nat.digitChar (n % 10)) :=
            decodeDigits_append_singleton _ _
        _ = 10 * (n / 10) + n % 10 := by
            rw [ih (n / 10) hdiv, charVal_digitChar (n % 10) (Nat.mod_lt n (by omega))]
        _ = n := Nat.div_add_mod n 10

theorem decode_natRepr (n : Nat) : decodeDigits (natRepr n) = n :=
  decode_natReprAux (n + 1) n (Nat.lt_succ_self n)

theorem natRepr_injective {a b : Nat} (h : natRepr a = natRepr b) : a = b := by
  have ha := decode_natRepr a
  rw [h, decode_natRepr b] at ha
  omega

theorem underscore_not_mem_natReprAux : ∀ fuel n, '_' ∉ natReprAux fuel n := by
  intro fuel
  induction fuel with
  | zero => intro n; simp [natReprAux]
  | succ fuel ih =>
    intro n
    by_cases h10 : n < 10
    · simp only [natReprAux, if_pos h10, List.mem_singleton]
      exact Ne.symm (digitChar_ne_underscore n h10)
    · simp only [natReprAux, if_neg h10, List.mem_append, List.mem_singleton]
      rintro (hmem | heq)
      · exact ih (n / 10) hmem
      · exact digitChar_ne_underscore (n % 10) (Nat.mod_lt n (by omega)) heq.symm

theorem underscore_not_mem_natRepr (n : Nat) : '_' ∉ natRepr n :=
  underscore_not_mem_natReprAux (n + 1) n

theorem append_underscore_cancel :
    ∀ (a₁ a₂ b₁ b₂ : List Char), '_' ∉ a₁ → '_' ∉ a₂ →
      a₁ ++ '_' :: b₁ = a₂ ++ '_' :: b₂ → a₁ = a₂ ∧ b₁ = b₂ := by
  intro a₁
  induction a₁ with
  | nil =>
    intro a₂ b₁ b₂ h1 h2 heq
    cases a₂ with
    | nil => simpa using heq
    | cons c t =>
      simp only [List.nil_append, List.cons_append, List.cons.injEq] at heq
      have hc : ('_' : Char) ∈ c :: t := by
        rw [heq.1]; exact List.mem_cons_self c t
      exact absurd hc h2
  | cons c t ih =>
    intro a₂ b₁ b₂ h1 h2 heq
    cases a₂ with
    | nil =>
      simp only [List.cons_append, List.nil_append, List.cons.injEq] at heq
      have hc : ('_' : Char) ∈ c :: t := by
        rw [← heq.1]; exact List.mem_cons_self c t
      exact absurd hc h1
    | cons c₂ t₂ =>
      simp only [List.cons_append, List.cons.injEq] at heq
      obtain ⟨hc, ht⟩ := heq
      have h1t : '_' ∉ t := fun hm => h1 (List.mem_cons_of_mem c hm)
      have h2t : '_' ∉ t₂ := fun hm => h2 (List.mem_cons_of_mem c₂ hm)
      obtain ⟨hte, hbe⟩ := ih t₂ b₁ b₂ h1t h2t ht
      exact ⟨by rw [hc, hte], hbe⟩

/-- The dedup key built in `handle_flood_request`:
`initiator_id.to_string() + "_" + flood_id.to_string()`. -/
def seen_key (initiator_id flood_id : Nat) : List Char :=
  natRepr initiator_id ++ '_' :: natRepr flood_id

theorem seen_key_injective {i₁ f₁ i₂ f₂ : Nat}
    (h : seen_key i₁ f₁ = seen_key i₂ f₂) : i₁ = i₂ ∧ f₁ = f₂ := by
  obtain ⟨ha, hb⟩ := append_underscore_cancel (natRepr i₁) (natRepr i₂)
    (natRepr f₁) (natRepr f₂)
    (underscore_not_mem_natRepr i₁) (underscore_not_mem_natRepr i₂) h
  exact ⟨natRepr_injective ha, natRepr_injective hb⟩

/-! ## Node state and observable effects

A `NetworkNode` implementor owns its id, its seen-flood-key set
(`HashSet<String>`) and its neighbour table (`HashMap<NodeId, Sender<Packet>>`).
The neighbour table is modelled by the list of neighbour ids that hold a
channel; per-channel send success is an explicit `sendOk` argument, and the
simulation-controller channel's success an explicit `simOk` argument.  Sends
and `DroneEvent::PacketSent` emissions are collected as output lists. -/

/-- One `DroneEvent::PacketSent(packet)` emission attempt; `ok` records whether
the simulation-controller channel accepted it. -/
structure EventAttempt where
  packet : Packet
  ok : Bool
deriving DecidableEq

/-- One attempt to send `packet` on the channel of neighbour `dest`. -/
structure SendAttempt where
  dest : NodeId
  packet : Packet
  delivered : Bool
deriving DecidableEq

/-- The observable channel effects of one operation, in order of occurrence. -/
structure Effects where
  events : List EventAttempt
  sends : List SendAttempt
deriving DecidableEq

/-- The mutable state a `NetworkNode` exposes to the shared protocol core. -/
structure NodeState where
  id : NodeId
  seen_flood_ids : List (List Char)
  packet_send : List NodeId
deriving DecidableEq

/-- `HashSet::insert`: adds the key only if it is not already present. -/
def hsInsert (k : List Char) (s : List (List Char)) : List (List Char) :=
  if k ∈ s then s else s ++ [k]

/-! ## The operations of `network_node.rs` -/

/-- `reverse_packet_routing_direction` (network_node.rs:412-429).
Clones the hops, drains `hop_index + 1 ..= len - 1` (keeping the prefix up to
and including the cursor), reverses, and sets the cursor to 1.  The drain
panics when the header is not in flight (`hop_index ≥ hops.len()`, which also
covers the `len - 1` underflow on empty hops); that panic is `none` here. -/
def reverse_packet_routing_direction (packet : Packet) : Option Packet :=
  let hops_vec := packet.routing_header.hops
  if packet.routing_header.hop_index < hops_vec.length then
    let drained :=
      hops_vec.take (packet.routing_header.hop_index + 1) ++ hops_vec.drop hops_vec.length
    some { packet with routing_header := { hop_index := 1, hops := drained.reverse } }
  else
    none

/-- `build_ack` (network_node.rs:226-256): panics (`none`) on a non-fragment
packet, otherwise wraps the fragment index in an Ack, keeps the session id and
reverses the routing direction. -/
def build_ack (packet : Packet) : Option Packet :=
  match packet.pack_type with
  | PacketType.MsgFragment fragment =>
    let ack : Ack := { fragment_index := fragment.fragment_index }
    reverse_packet_routing_direction
      { pack_type := PacketType.Ack ack,
        routing_header := packet.routing_header,
        session_id := packet.session_id }
  | _ => none

/-- `forward_packet` (network_node.rs:159-178): reads `hops[hop_index]`
(panic when out of bounds), and if a channel for that id exists, first emits a
`PacketSent` event (emission failure only logged) and then sends the packet
(send failure panics via `expect`).  Without a channel the drop is only
logged. -/
def forward_packet (st : NodeState) (simOk : Bool) (sendOk : NodeId → Bool)
    (packet : Packet) : Option Effects :=
  match packet.routing_header.hops[packet.routing_header.hop_index]? with
  | none => none
  | some next_hop_id =>
    if next_hop_id ∈ st.packet_send then
      if sendOk next_hop_id then
        some { events := [{ packet := packet, ok := simOk }],
               sends := [{ dest := next_hop_id, packet := packet, delivered := true }] }
      else none
    else
      some { events := [], sends := [] }

/-- `broadcast_packet` (network_node.rs:375-402): for every neighbour other
than the one the packet came from, rewrites the routing header to the direct
two-hop path `[self, neighbour]` with cursor 1, emits a `PacketSent` event and
sends; both failures are only logged, so nothing panics and every neighbour is
attempted. -/
def broadcast_packet (st : NodeState) (simOk : Bool) (sendOk : NodeId → Bool)
    (packet : Packet) (who_i_received_the_packet_from : NodeId) : Effects :=
  let neighbours := st.packet_send.filter (fun key => key != who_i_received_the_packet_from)
  { events := neighbours.map (fun node_id =>
      { packet := { packet with routing_header := { hop_index := 1, hops := [st.id, node_id] } },
        ok := simOk }),
    sends := neighbours.map (fun node_id =>
      { dest := node_id,
        packet := { packet with routing_header := { hop_index := 1, hops := [st.id, node_id] } },
        delivered := sendOk node_id }) }

/-- `build_flood_response` (network_node.rs:339-364): panics (`none`) unless
the packet is a flood request; otherwise reverses the node ids of the given
path trace into the reply route (cursor 1) and reuses the flood id both as the
response's flood id and as the new packet's session id. -/
def build_flood_response (packet : Packet) (path_trace : List (NodeId × NodeType)) :
    Option Packet :=
  match packet.pack_type with
  | PacketType.FloodRequest flood_request =>
    some { pack_type := PacketType.FloodResponse
             { flood_id := flood_request.flood_id, path_trace := path_trace },
           routing_header := { hop_index := 1, hops := (path_trace.map Prod.fst).reverse },
           session_id := flood_request.flood_id }
  | _ => none

/-- The already-received test of `handle_flood_request` (network_node.rs:278-283):
`seen.iter().any(|id| *id == initiator.to_string() + "_" + flood_id.to_string())`. -/
def flood_request_is_already_received (seen : List (List Char))
    (initiator_id flood_id : Nat) : Bool :=
  seen.any (fun id => id == seen_key initiator_id flood_id)

/-- `handle_flood_request` (network_node.rs:267-320).  Reads the predecessor
from the last trace entry (panic on an empty trace), appends `(self, type)` to
the trace, and either terminates with a flood response forwarded one hop back
(already-seen key, or exactly one neighbour) or records the key and broadcasts
the extended request to everyone but the predecessor. -/
def handle_flood_request (st : NodeState) (simOk : Bool) (sendOk : NodeId → Bool)
    (packet : Packet) (node_type : NodeType) : Option (NodeState × Effects) :=
  match packet.pack_type with
  | PacketType.FloodRequest flood_request =>
    match flood_request.path_trace.getLast? with
    | none => none
    | some last =>
      let who_sent_me_this_flood_request := last.1
      let extended : FloodRequest :=
        { flood_request with path_trace := flood_request.path_trace ++ [(st.id, node_type)] }
      let already : Bool :=
        flood_request_is_already_received st.seen_flood_ids
          flood_request.initiator_id flood_request.flood_id
      let has_no_neighbour : Bool := st.packet_send.length == 1
      if already || has_no_neighbour then
        (build_flood_response packet extended.path_trace).bind
          (fun flood_response_packet =>
            (forward_packet st simOk sendOk flood_response_packet).map (fun eff => (st, eff)))
      else
        let key := seen_key flood_request.initiator_id flood_request.flood_id
        let st' : NodeState := { st with seen_flood_ids := hsInsert key st.seen_flood_ids }
        let updated_packet : Packet :=
          { pack_type := PacketType.FloodRequest extended,
            routing_header := packet.routing_header,
            session_id := packet.session_id }
        some (st', broadcast_packet st' simOk sendOk updated_packet
                who_sent_me_this_flood_request)
  | _ => some (st, { events := [], sends := [] })

/-- `handle_packet` (network_node.rs:134-145): dispatches flood requests to the
flood controller and returns `false`; everything else goes to the
node-specific `handle_routed_packet` (the abstract `hrp` argument).  The
`if get_crashing_behavior() { true; }` check computes a discarded value and
has no control effect, which the `_crash_check` binding mirrors. -/
def handle_packet (hrp : NodeState → Packet → Option (NodeState × Effects × Bool))
    (st : NodeState) (crashing : Bool) (simOk : Bool) (sendOk : NodeId → Bool)
    (packet : Packet) (node_type : NodeType) : Option (NodeState × Effects × Bool) :=
  match packet.pack_type with
  | PacketType.FloodRequest _ =>
    let _crash_check : Bool := crashing
    (handle_flood_request st simOk sendOk packet node_type).map
      (fun r => (r.1, r.2, false))
  | _ => hrp st packet

/-! ## Shared lemmas -/

/-- On an in-flight header the drain keeps exactly the prefix up to and
including the cursor, so the reversal is `take`, `reverse`, cursor 1. -/
theorem reverse_packet_eq (p : Packet)
    (h : p.routing_header.hop_index < p.routing_header.hops.length) :
    reverse_packet_routing_direction p =
      some { p with routing_header :=
        { hop_index := 1,
          hops := (p.routing_header.hops.take (p.routing_header.hop_index + 1)).reverse } } := by
  simp [reverse_packet_routing_direction, h, List.drop_length]

/-! ## C1 -/

/-- C1: for every in-flight packet header (`hop_index < hops.length`),
`reverse_packet_routing_direction` discards every hop strictly beyond the
cursor, reverses the remaining prefix `hops[0..=hop_index]`, and sets the new
cursor to 1; the `{p with ...}` form shows payload and session id unchanged. -/
theorem reverse_routing_reverses_prefix_cursor_one (p : Packet)
    (h : p.routing_header.hop_index < p.routing_header.hops.length) :
    reverse_packet_routing_direction p =
      some { p with routing_header :=
        { hop_index := 1,
          hops := (p.routing_header.hops.take (p.routing_header.hop_index + 1)).reverse } } :=
  reverse_packet_eq p h

/-- C1 witness: reversing `[10, 20, 30, 40]` at cursor 2 keeps `[10, 20, 30]`
reversed, cursor 1, same payload and session id. -/
theorem reverse_routing_reverses_prefix_cursor_one_witness :
    reverse_packet_routing_direction
        { pack_type := PacketType.Ack { fragment_index := 3 },
          routing_header := { hop_index := 2, hops := [10, 20, 30, 40] },
          session_id := 99 } =
      some { pack_type := PacketType.Ack { fragment_index := 3 },
             routing_header := { hop_index := 1, hops := [30, 20, 10] },
             session_id := 99 } :=
  (reverse_routing_reverses_prefix_cursor_one _ (by decide)).trans (by decide)

/-! ## C7 -/

/-- C7 counterexample: reversing the in-flight single-hop header
`hops = [5]`, `hop_index = 0` keeps the single hop but sets the cursor to 1,
and the resulting header has `hop_index = 1 = hops.length`, so it does not
satisfy the claimed in-flight invariant `hop_index < hops.length`. -/
theorem single_hop_reverse_invariant_cex :
    reverse_packet_routing_direction
        { pack_type := PacketType.Ack { fragment_index := 0 },
          routing_header := { hop_index := 0, hops := [5] },
          session_id := 1 } =
      some { pack_type := PacketType.Ack { fragment_index := 0 },
             routing_header := { hop_index := 1, hops := [5] },
             session_id := 1 } ∧
    ¬ (({ hop_index := 1, hops := [5] } : SourceRoutingHeader).hop_index <
        ({ hop_index := 1, hops := [5] } : SourceRoutingHeader).hops.length) :=
  ⟨by decide, by decide⟩

/-- C7 amended: a single-hop in-flight header reverses to the same single hop
with cursor 1; the cursor then equals the hop count, so the reversed header no
longer satisfies the in-flight invariant. -/
theorem single_hop_reverse_same_hop (p : Packet) (x : NodeId)
    (hh : p.routing_header.hops = [x]) (hi : p.routing_header.hop_index = 0) :
    reverse_packet_routing_direction p =
      some { p with routing_header := { hop_index := 1, hops := [x] } } ∧
    ∀ q, reverse_packet_routing_direction p = some q →
      ¬ q.routing_header.hop_index < q.routing_header.hops.length := by
  have h0 : p.routing_header.hop_index < p.routing_header.hops.length := by
    rw [hh, hi]; simp
  have hr : reverse_packet_routing_direction p =
      some { p with routing_header := { hop_index := 1, hops := [x] } } := by
    have heq := reverse_packet_eq p h0
    rw [hh, hi] at heq
    simpa using heq
  refine ⟨hr, ?_⟩
  intro q hq
  have hqe : q = { p with routing_header := { hop_index := 1, hops := [x] } } :=
    Option.some.inj (hq.symm.trans hr)
  subst hqe
  simp

/-- C7 amended witness. -/
theorem single_hop_reverse_same_hop_witness :
    reverse_packet_routing_direction
        { pack_type := PacketType.FloodResponse { flood_id := 2, path_trace := [] },
          routing_header := { hop_index := 0, hops := [5] },
          session_id := 3 } =
      some { pack_type := PacketType.FloodResponse { flood_id := 2, path_trace := [] },
             routing_header := { hop_index := 1, hops := [5] },
             session_id := 3 } :=
  (single_hop_reverse_same_hop _ 5 rfl rfl).1

/-! ## C8 -/

/-- C8: reversing an in-flight header and reversing the result again at the
same traversal position restores the original remaining hop sequence
`hops[0..=hop_index]` in forward order, with cursor 1 — a forward-traversable
path again. -/
theorem double_reverse_restores_forward_path (p : Packet)
    (h : p.routing_header.hop_index < p.routing_header.hops.length) :
    ∀ q, reverse_packet_routing_direction p = some q →
      reverse_packet_routing_direction
          { q with routing_header :=
              { q.routing_header with hop_index := p.routing_header.hop_index } } =
        some { p with routing_header :=
          { hop_index := 1,
            hops := p.routing_header.hops.take (p.routing_header.hop_index + 1) } } := by
  intro q hq
  rw [reverse_packet_eq p h] at hq
  have hqe := Option.some.inj hq.symm
  subst hqe
  show reverse_packet_routing_direction
      { p with routing_header :=
          { hop_index := p.routing_header.hop_index,
            hops := (p.routing_header.hops.take (p.routing_header.hop_index + 1)).reverse } } = _
  have hlen : ((p.routing_header.hops.take (p.routing_header.hop_index + 1)).reverse).length
      = p.routing_header.hop_index + 1 := by
    rw [List.length_reverse, List.length_take]
    exact Nat.min_eq_left (by omega)
  rw [reverse_packet_eq _ (by simp [hlen])]
  rw [List.take_of_length_le (le_of_eq hlen), List.reverse_reverse]

/-- C8 witness: `[10, 20, 30, 40]` at cursor 2 reverses to `[30, 20, 10]`;
reversing again at position 2 restores `[10, 20, 30]` with cursor 1. -/
theorem double_reverse_restores_forward_path_witness :
    reverse_packet_routing_direction
        { pack_type := PacketType.Ack { fragment_index := 0 },
          routing_header := { hop_index := 2, hops := [30, 20, 10] },
          session_id := 99 } =
      some { pack_type := PacketType.Ack { fragment_index := 0 },
             routing_header := { hop_index := 1, hops := [10, 20, 30] },
             session_id := 99 } := by
  have h := double_reverse_restores_forward_path
      { pack_type := PacketType.Ack { fragment_index := 0 },
        routing_header := { hop_index := 2, hops := [10, 20, 30, 40] },
        session_id := 99 } (by decide)
      { pack_type := PacketType.Ack { fragment_index := 0 },
        routing_header := { hop_index := 1, hops := [30, 20, 10] },
        session_id := 99 } (by decide)
  exact h.trans (by decide)

/-! ## C5 -/

/-- C5: `build_ack` aborts on every non-fragment payload; on a fragment with
index `k` and an in-flight header it returns an Ack packet with fragment index
`k`, the original session id, and a reversed routing header whose cursor
is 1. -/
theorem build_ack_contract :
    (∀ packet : Packet,
      (∀ fragment, packet.pack_type ≠ PacketType.MsgFragment fragment) →
      build_ack packet = none) ∧
    (∀ (packet : Packet) (fragment : Fragment),
      packet.pack_type = PacketType.MsgFragment fragment →
      packet.routing_header.hop_index < packet.routing_header.hops.length →
      build_ack packet =
        some { pack_type := PacketType.Ack { fragment_index := fragment.fragment_index },
               routing_header :=
                 { hop_index := 1,
                   hops := (packet.routing_header.hops.take
                     (packet.routing_header.hop_index + 1)).reverse },
               session_id := packet.session_id }) := by
  constructor
  · rintro ⟨pt, rh, sid⟩ hnot
    cases pt with
    | MsgFragment fragment => exact absurd rfl (hnot fragment)
    | Ack a => rfl
    | Nack n => rfl
    | FloodRequest fr => rfl
    | FloodResponse fr => rfl
  · rintro ⟨pt, rh, sid⟩ fragment hpt hlt
    change pt = PacketType.MsgFragment fragment at hpt
    subst hpt
    show reverse_packet_routing_direction
        { pack_type := PacketType.Ack { fragment_index := fragment.fragment_index },
          routing_header := rh, session_id := sid } = _
    exact reverse_packet_eq _ hlt

/-- C5 witness: a Nack payload aborts; fragment index 6 over `[1, 2]` at
cursor 1 yields an Ack with index 6, session id 8, header `[2, 1]`, cursor 1. -/
theorem build_ack_contract_witness :
    build_ack
        { pack_type := PacketType.Nack { fragment_index := 4, nack_type := NackType.Dropped },
          routing_header := { hop_index := 1, hops := [1, 2] },
          session_id := 8 } = none ∧
    build_ack
        { pack_type := PacketType.MsgFragment
            { fragment_index := 6, total_n_fragments := 9, length := 128, data := [] },
          routing_header := { hop_index := 1, hops := [1, 2] },
          session_id := 8 } =
      some { pack_type := PacketType.Ack { fragment_index := 6 },
             routing_header := { hop_index := 1, hops := [2, 1] },
             session_id := 8 } := by
  constructor
  · exact build_ack_contract.1 _ (fun fragment h => by cases h)
  · exact (build_ack_contract.2 _ _ rfl (by decide)).trans (by decide)

/-! ## C6 -/

/-- C6: when the neighbour table has a channel for `hops[hop_index]`,
`forward_packet` emits one PacketSent event carrying exactly the packet it
then delivers unchanged, and delivery does not depend on whether the event
emission succeeded (`simOk` is arbitrary); when no channel exists, nothing is
sent, no event is emitted, and the call still returns normally. -/
theorem forward_packet_behaviour (st : NodeState) (simOk : Bool)
    (sendOk : NodeId → Bool) (packet : Packet) (next_hop_id : NodeId)
    (hnext : packet.routing_header.hops[packet.routing_header.hop_index]? = some next_hop_id) :
    (next_hop_id ∈ st.packet_send → sendOk next_hop_id = true →
      forward_packet st simOk sendOk packet =
        some { events := [{ packet := packet, ok := simOk }],
               sends := [{ dest := next_hop_id, packet := packet, delivered := true }] }) ∧
    (next_hop_id ∉ st.packet_send →
      forward_packet st simOk sendOk packet = some { events := [], sends := [] }) := by
  constructor
  · intro hmem hok
    simp [forward_packet, hnext, hmem, hok]
  · intro hmem
    simp [forward_packet, hnext, hmem]

/-- C6 witness: node 1 with a channel to 2 forwards a session-42 packet headed
`[1, 2]` at cursor 1 to node 2 unchanged, with the event carrying the same
packet; towards next hop 9 (no channel) nothing is sent or emitted. -/
theorem forward_packet_behaviour_witness :
    forward_packet { id := 1, seen_flood_ids := [], packet_send := [2] } true (fun _ => true)
        { pack_type := PacketType.Ack { fragment_index := 0 },
          routing_header := { hop_index := 1, hops := [1, 2] },
          session_id := 42 } =
      some { events := [{ packet :=
               { pack_type := PacketType.Ack { fragment_index := 0 },
                 routing_header := { hop_index := 1, hops := [1, 2] },
                 session_id := 42 }, ok := true }],
             sends := [{ dest := 2, packet :=
               { pack_type := PacketType.Ack { fragment_index := 0 },
                 routing_header := { hop_index := 1, hops := [1, 2] },
                 session_id := 42 }, delivered := true }] } ∧
    forward_packet { id := 1, seen_flood_ids := [], packet_send := [2] } true (fun _ => true)
        { pack_type := PacketType.Ack { fragment_index := 0 },
          routing_header := { hop_index := 1, hops := [1, 9] },
          session_id := 42 } =
      some { events := [], sends := [] } := by
  constructor
  · exact (forward_packet_behaviour { id := 1, seen_flood_ids := [], packet_send := [2] }
      true (fun _ => true)
      { pack_type := PacketType.Ack { fragment_index := 0 },
        routing_header := { hop_index := 1, hops := [1, 2] },
        session_id := 42 } 2 rfl).1 (by decide) rfl
  · exact (forward_packet_behaviour { id := 1, seen_flood_ids := [], packet_send := [2] }
      true (fun _ => true)
      { pack_type := PacketType.Ack { fragment_index := 0 },
        routing_header := { hop_index := 1, hops := [1, 9] },
        session_id := 42 } 9 rfl).2 (by decide)

/-! ## C2 -/

/-- C2: over a seen set holding exactly the encoded keys of the previously
recorded `(initiator, flood_id)` pairs, the already-received test of
`handle_flood_request` succeeds if and only if the incoming pair itself was
recorded; in particular a key recorded by a different initiator with the same
flood id never matches. -/
theorem already_received_iff_pair_recorded :
    (∀ (recorded : List (Nat × Nat)) (i f : Nat),
      flood_request_is_already_received (recorded.map (fun q => seen_key q.1 q.2)) i f = true ↔
        (i, f) ∈ recorded) ∧
    (∀ (i₁ i₂ f : Nat), i₁ ≠ i₂ →
      flood_request_is_already_received [seen_key i₂ f] i₁ f = false) := by
  constructor
  · intro recorded i f
    simp only [flood_request_is_already_received]
    constructor
    · intro h
      obtain ⟨x, hx, hbeq⟩ := List.any_eq_true.mp h
      obtain ⟨⟨q1, q2⟩, hq, rfl⟩ := List.mem_map.mp hx
      obtain ⟨h1, h2⟩ := seen_key_injective (eq_of_beq hbeq)
      subst h1
      subst h2
      exact hq
    · intro hm
      apply List.any_eq_true.mpr
      exact ⟨seen_key i f, List.mem_map.mpr ⟨(i, f), hm, rfl⟩, beq_self_eq_true _⟩
  · intro i₁ i₂ f hne
    show ([seen_key i₂ f].any fun id => id == seen_key i₁ f) = false
    simp only [List.any_cons, List.any_nil, Bool.or_false]
    rw [beq_eq_false_iff_ne]
    intro h
    exact hne ((seen_key_injective h).1).symm

/-- C2 witness: with the key of `(3, 7)` recorded, the pair `(3, 7)` is
already seen while `(2, 7)` — equal flood id, different initiator — is not. -/
theorem already_received_iff_pair_recorded_witness :
    flood_request_is_already_received [seen_key 3 7] 3 7 = true ∧
    flood_request_is_already_received [seen_key 3 7] 2 7 = false := by
  constructor
  · have h := (already_received_iff_pair_recorded.1 [(3, 7)] 3 7).mpr (by simp)
    simpa using h
  · exact already_received_iff_pair_recorded.2 2 3 7 (by decide)

/-! ## C3 -/

/-- C3: a flood request with a fresh key arriving at a node with more than one
neighbour records the key as seen and broadcasts the request — with
`(self id, self type)` appended to the path trace — to exactly the neighbours
other than the sender, each copy carrying the direct header
`[self, neighbour]` with cursor 1; each copy's delivery depends only on that
neighbour's own channel (`sendOk` at that neighbour), so one failed send
leaves the other copies delivered. -/
theorem fresh_flood_broadcast (st : NodeState) (simOk : Bool) (sendOk : NodeId → Bool)
    (packet : Packet) (fr : FloodRequest) (node_type : NodeType) (last : NodeId × NodeType)
    (hp : packet.pack_type = PacketType.FloodRequest fr)
    (hlast : fr.path_trace.getLast? = some last)
    (hfresh : flood_request_is_already_received st.seen_flood_ids fr.initiator_id fr.flood_id
      = false)
    (hmany : 1 < st.packet_send.length) :
    handle_flood_request st simOk sendOk packet node_type =
      some ({ st with seen_flood_ids :=
                hsInsert (seen_key fr.initiator_id fr.flood_id) st.seen_flood_ids },
            { events := (st.packet_send.filter (fun key => key != last.1)).map (fun node_id =>
                { packet := { pack_type := PacketType.FloodRequest
                                { fr with path_trace := fr.path_trace ++ [(st.id, node_type)] },
                              routing_header := { hop_index := 1, hops := [st.id, node_id] },
                              session_id := packet.session_id },
                  ok := simOk }),
              sends := (st.packet_send.filter (fun key => key != last.1)).map (fun node_id =>
                { dest := node_id,
                  packet := { pack_type := PacketType.FloodRequest
                                { fr with path_trace := fr.path_trace ++ [(st.id, node_type)] },
                              routing_header := { hop_index := 1, hops := [st.id, node_id] },
                              session_id := packet.session_id },
                  delivered := sendOk node_id }) }) := by
  rcases packet with ⟨pt, rh, sid⟩
  change pt = _ at hp
  subst hp
  have hlen : (st.packet_send.length == 1) = false :=
    beq_eq_false_iff_ne.mpr (by omega)
  simp [handle_flood_request, hlast, hfresh, hlen, broadcast_packet]

/-- Per-neighbour channel outcome used by the C3 witness: the send to
neighbour 2 fails, the others succeed. -/
def failTwo : NodeId → Bool := fun n => n != 2

/-- The per-neighbour broadcast copy produced in the C3 witness scenario. -/
def c3_copy (n : NodeId) : Packet :=
  { pack_type := PacketType.FloodRequest
      { flood_id := 7, initiator_id := 1,
        path_trace := [(1, NodeType.Client), (10, NodeType.Drone)] },
    routing_header := { hop_index := 1, hops := [10, n] },
    session_id := 40 }

/-- C3 witness: node 10 with neighbours `[1, 2, 3]` receives a fresh flood
request from 1 and broadcasts to exactly 2 and 3 with headers `[10, 2]` and
`[10, 3]`; the failed send to 2 does not stop the delivery to 3. -/
theorem fresh_flood_broadcast_witness :
    handle_flood_request { id := 10, seen_flood_ids := [], packet_send := [1, 2, 3] } true failTwo
        { pack_type := PacketType.FloodRequest
            { flood_id := 7, initiator_id := 1, path_trace := [(1, NodeType.Client)] },
          routing_header := { hop_index := 0, hops := [1, 10] },
          session_id := 40 } NodeType.Drone =
      some ({ id := 10, seen_flood_ids := [['1', '_', '7']], packet_send := [1, 2, 3] },
            { events := [{ packet := c3_copy 2, ok := true },
                         { packet := c3_copy 3, ok := true }],
              sends := [{ dest := 2, packet := c3_copy 2, delivered := false },
                        { dest := 3, packet := c3_copy 3, delivered := true }] }) := by
  have h := fresh_flood_broadcast { id := 10, seen_flood_ids := [], packet_send := [1, 2, 3] }
      true failTwo
      { pack_type := PacketType.FloodRequest
          { flood_id := 7, initiator_id := 1, path_trace := [(1, NodeType.Client)] },
        routing_header := { hop_index := 0, hops := [1, 10] },
        session_id := 40 }
      { flood_id := 7, initiator_id := 1, path_trace := [(1, NodeType.Client)] }
      NodeType.Drone (1, NodeType.Client) rfl rfl rfl (by decide)
  exact h.trans (by decide)

/-! ## C4 -/

/-- The flood request packet of the C4 scenarios; its session id equals its
flood id. -/
def c4_request : Packet :=
  { pack_type := PacketType.FloodRequest
      { flood_id := 7, initiator_id := 1, path_trace := [(1, NodeType.Client)] },
    routing_header := { hop_index := 0, hops := [1] },
    session_id := 7 }

/-- C4 counterexample: `build_flood_response` sets the response's session id
to the request's flood id, so for this request — whose session id is its flood
id — the response carries exactly the session id the request already had: no
new session id is assigned. -/
theorem flood_response_session_id_cex :
    (build_flood_response c4_request [(1, NodeType.Client), (2, NodeType.Drone)]).map
        Packet.session_id = some c4_request.session_id := by decide

/-- C4 amended: every flood response built from a flood request carries the
request's flood id, a session id equal to that same flood id (not a freshly
drawn one), and a routing header whose hops are the reversed node ids of the
supplied (extended) path trace with cursor 1. -/
theorem build_flood_response_fields (packet : Packet) (fr : FloodRequest)
    (path_trace : List (NodeId × NodeType))
    (hp : packet.pack_type = PacketType.FloodRequest fr) :
    build_flood_response packet path_trace =
      some { pack_type := PacketType.FloodResponse
               { flood_id := fr.flood_id, path_trace := path_trace },
             routing_header := { hop_index := 1, hops := (path_trace.map Prod.fst).reverse },
             session_id := fr.flood_id } := by
  rcases packet with ⟨pt, rh, sid⟩
  change pt = _ at hp
  subst hp
  rfl

/-- C4 amended witness: the response to `c4_request` over the extended trace
`[(1, Client), (2, Drone)]` has flood id 7, session id 7, hops `[2, 1]`,
cursor 1. -/
theorem build_flood_response_fields_witness :
    build_flood_response c4_request [(1, NodeType.Client), (2, NodeType.Drone)] =
      some { pack_type := PacketType.FloodResponse
               { flood_id := 7, path_trace := [(1, NodeType.Client), (2, NodeType.Drone)] },
             routing_header := { hop_index := 1, hops := [2, 1] },
             session_id := 7 } := by
  have h := build_flood_response_fields c4_request
      { flood_id := 7, initiator_id := 1, path_trace := [(1, NodeType.Client)] }
      [(1, NodeType.Client), (2, NodeType.Drone)] rfl
  exact h.trans (by decide)

/-! ## C9 -/

/-- C9: on a FloodRequest packet, `handle_packet` always runs the flood
controller and pairs its outcome with return value `false`, whatever the
crashing-behaviour flag and the node-specific routed handler; the
`if get_crashing_behavior() { true; }` check has no observable effect. -/
theorem handle_packet_flood_ignores_crashing
    (hrp : NodeState → Packet → Option (NodeState × Effects × Bool))
    (st : NodeState) (crashing simOk : Bool) (sendOk : NodeId → Bool)
    (packet : Packet) (fr : FloodRequest) (node_type : NodeType)
    (hp : packet.pack_type = PacketType.FloodRequest fr) :
    handle_packet hrp st crashing simOk sendOk packet node_type =
      (handle_flood_request st simOk sendOk packet node_type).map
        (fun r => (r.1, r.2, false)) := by
  rcases packet with ⟨pt, rh, sid⟩
  change pt = _ at hp
  subst hp
  rfl

/-- A routed-packet handler that would return `true`; C9's witness shows it is
never consulted for a flood request. -/
def c9_hrp : NodeState → Packet → Option (NodeState × Effects × Bool) :=
  fun st _ => some (st, { events := [], sends := [] }, true)

/-- The flood response forwarded in the C9 witness scenario. -/
def c9_response : Packet :=
  { pack_type := PacketType.FloodResponse
      { flood_id := 5, path_trace := [(2, NodeType.Drone), (10, NodeType.Drone)] },
    routing_header := { hop_index := 1, hops := [10, 2] },
    session_id := 5 }

/-- C9 witness: with the crashing flag set, a flood request at dead-end node
10 still reaches the flood controller (which replies to node 2) and
`handle_packet` returns `false`. -/
theorem handle_packet_flood_ignores_crashing_witness :
    handle_packet c9_hrp { id := 10, seen_flood_ids := [], packet_send := [2] } true true
        (fun _ => true)
        { pack_type := PacketType.FloodRequest
            { flood_id := 5, initiator_id := 2, path_trace := [(2, NodeType.Drone)] },
          routing_header := { hop_index := 0, hops := [2, 10] },
          session_id := 9 } NodeType.Drone =
      some ({ id := 10, seen_flood_ids := [], packet_send := [2] },
            { events := [{ packet := c9_response, ok := true }],
              sends := [{ dest := 2, packet := c9_response, delivered := true }] }, false) := by
  have h := handle_packet_flood_ignores_crashing c9_hrp
      { id := 10, seen_flood_ids := [], packet_send := [2] } true true (fun _ => true)
      { pack_type := PacketType.FloodRequest
          { flood_id := 5, initiator_id := 2, path_trace := [(2, NodeType.Drone)] },
        routing_header := { hop_index := 0, hops := [2, 10] },
        session_id := 9 }
      { flood_id := 5, initiator_id := 2, path_trace := [(2, NodeType.Drone)] }
      NodeType.Drone rfl
  exact h.trans (by decide)

/-! ## C10 -/

/-- C10: whenever flood handling completes, the node id and the neighbour
table are untouched on both paths; on the terminate-and-reply path
(already-seen key or exactly one neighbour) the seen-flood-id set is also left
unchanged, and only on the broadcast path is the `(initiator, flood_id)` key
inserted. -/
theorem handle_flood_request_frame (st : NodeState) (simOk : Bool)
    (sendOk : NodeId → Bool) (packet : Packet) (fr : FloodRequest) (node_type : NodeType)
    (st' : NodeState) (eff : Effects)
    (hp : packet.pack_type = PacketType.FloodRequest fr)
    (hrun : handle_flood_request st simOk sendOk packet node_type = some (st', eff)) :
    st'.id = st.id ∧ st'.packet_send = st.packet_send ∧
    ((flood_request_is_already_received st.seen_flood_ids fr.initiator_id fr.flood_id = true ∨
        st.packet_send.length = 1) →
      st'.seen_flood_ids = st.seen_flood_ids) ∧
    ((flood_request_is_already_received st.seen_flood_ids fr.initiator_id fr.flood_id = false ∧
        st.packet_send.length ≠ 1) →
      st'.seen_flood_ids =
        hsInsert (seen_key fr.initiator_id fr.flood_id) st.seen_flood_ids) := by
  rcases packet with ⟨pt, rh, sid⟩
  change pt = _ at hp
  subst hp
  cases hgl : fr.path_trace.getLast? with
  | none =>
    simp [handle_flood_request, hgl] at hrun
  | some last =>
    by_cases hcond : (flood_request_is_already_received st.seen_flood_ids fr.initiator_id
        fr.flood_id || (st.packet_send.length == 1)) = true
    · simp only [handle_flood_request, hgl, hcond, if_true, build_flood_response,
        Option.some_bind] at hrun
      obtain ⟨eff', hfp, heq⟩ := Option.map_eq_some'.mp hrun
      obtain ⟨hst, hef⟩ := Prod.mk.injEq .. |>.mp heq
      subst hst
      refine ⟨rfl, rfl, fun _ => rfl, fun hfr => ?_⟩
      exfalso
      obtain ⟨hf, hl⟩ := hfr
      rw [hf, Bool.false_or] at hcond
      exact hl (by simpa using hcond)
    · have hcond' := Bool.eq_false_iff.mpr hcond
      simp only [handle_flood_request, hgl, hcond', Bool.false_eq_true, if_false] at hrun
      obtain ⟨hst, hef⟩ := Prod.mk.injEq .. |>.mp (Option.some.inj hrun)
      subst hst
      refine ⟨rfl, rfl, fun hor => ?_, fun _ => rfl⟩
      exfalso
      obtain ⟨hf, hl⟩ := Bool.or_eq_false_iff.mp hcond'
      cases hor with
      | inl h => rw [h] at hf; cases hf
      | inr h => rw [h] at hl; simp at hl

/-- C10 witness: at dead-end node 10 (single neighbour 2) the terminate path
replies with a flood response and leaves the seen set and neighbour table
unchanged. -/
theorem handle_flood_request_frame_witness :
    ({ id := 10, seen_flood_ids := [], packet_send := [2] } : NodeState).id = 10 ∧
    ({ id := 10, seen_flood_ids := [], packet_send := [2] } : NodeState).packet_send = [2] ∧
    ({ id := 10, seen_flood_ids := [], packet_send := [2] } : NodeState).seen_flood_ids = [] := by
  have h := handle_flood_request_frame { id := 10, seen_flood_ids := [], packet_send := [2] }
      true (fun _ => true)
      { pack_type := PacketType.FloodRequest
          { flood_id := 5, initiator_id := 2, path_trace := [(2, NodeType.Drone)] },
        routing_header := { hop_index := 0, hops := [2, 10] },
        session_id := 9 }
      { flood_id := 5, initiator_id := 2, path_trace := [(2, NodeType.Drone)] }
      NodeType.Drone { id := 10, seen_flood_ids := [], packet_send := [2] }
      { events := [{ packet := c9_response, ok := true }],
        sends := [{ dest := 2, packet := c9_response, delivered := true }] }
      rfl (by decide)
  exact ⟨h.1, h.2.1, h.2.2.1 (Or.inr rfl)⟩

end DrOnes
